import Mathlib

/-!
Verification of the `PeoplesJWilson/notebooks` repository.

The repository consists of two notebooks:

* `src/Notebooks/sql_project_chinook.ipynb` runs a fixed set of SQLite
  queries against the Chinook music-store database (tables `genre`,
  `track`, `invoice_line`, `invoice`, `customer`, `employee`, ...).
* `src/Notebooks/crime_report_database.ipynb` runs a scripted sequence of
  psycopg2 calls (DDL/DCL statements, a CSV bulk copy, grants) against a
  Postgres server.

This file gives a shallow embedding of both:

* the Chinook tables become Lean structures, a database is a record of
  lists of rows, and each SQL query of the notebook becomes a Lean
  function on such a database (joins are modelled relationally: a LEFT
  JOIN produces one output row per matching pair, or a single row with a
  `none` right side when there is no match, exactly as in SQL);
* the crime-report notebook becomes a list of events (connect, execute,
  copy, close, ...) transcribed cell by cell from the source, together
  with a small sequential semantics used to reason about error
  propagation.

Numeric columns (`invoice.total`, percentages) are modelled by `Rat`.
SQLite evaluates these in IEEE doubles; all concrete values appearing in
the notebooks and claims are far from rounding ties, so the exact
rational model agrees with the captured outputs.
-/

namespace NotebooksRepo

/-! ## Generic relational operators

`leftJoin xs ys p` is SQL `xs LEFT JOIN ys ON p`: each `x` is paired with
every matching `y`, or with `none` if no `y` matches.  `innerJoin` keeps
only matching pairs. -/

def leftJoin {α β : Type} (xs : List α) (ys : List β) (p : α → β → Bool) :
    List (α × Option β) :=
  xs.flatMap fun x =>
    match ys.filter (p x) with
    | [] => [(x, none)]
    | ms => ms.map fun y => (x, some y)

def innerJoin {α β : Type} (xs : List α) (ys : List β) (p : α → β → Bool) :
    List (α × β) :=
  xs.flatMap fun x => (ys.filter (p x)).map fun y => (x, y)

/-- A filter that can keep at most one element is the `toList` of `find?`. -/
theorem filter_eq_toList_find? {α : Type} (p : α → Bool) :
    ∀ (ys : List α), (ys.filter p).length ≤ 1 →
      ys.filter p = (ys.find? p).toList := by
  intro ys
  induction ys with
  | nil => intro _; rfl
  | cons y ys ih =>
    intro h
    by_cases hy : p y
    · rw [List.filter_cons_of_pos hy] at h ⊢
      rw [List.find?_cons_of_pos _ hy]
      have hlen : (ys.filter p).length = 0 := by
        have := List.length_cons y (ys.filter p) ▸ h
        omega
      simp [List.length_eq_zero.mp hlen, Option.toList]
    · rw [List.filter_cons_of_neg hy] at h ⊢
      rw [List.find?_cons_of_neg _ hy]
      exact ih h

/-- Under an at-most-one-match bound, a LEFT JOIN is a `map` pairing each
left row with the first (hence unique) match. -/
theorem leftJoin_eq_map {α β : Type} (xs : List α) (ys : List β)
    (p : α → β → Bool) (h : ∀ x ∈ xs, (ys.filter (p x)).length ≤ 1) :
    leftJoin xs ys p = xs.map fun x => (x, ys.find? (p x)) := by
  induction xs with
  | nil => rfl
  | cons x xs ih =>
    have hx := h x (by simp)
    have hrec := ih (fun a ha => h a (by simp [ha]))
    have hfe : (ys.filter (p x)) = (ys.find? (p x)).toList :=
      filter_eq_toList_find? (p x) ys hx
    simp only [leftJoin, List.flatMap_cons] at *
    rw [List.map_cons, ← hrec]
    cases hf : ys.find? (p x) with
    | none => rw [hfe, hf]; rfl
    | some y => rw [hfe, hf]; rfl

/-- Under an at-most-one-match bound, an INNER JOIN is a `filterMap`
pairing each left row with its unique match, if any. -/
theorem innerJoin_eq_filterMap {α β : Type} (xs : List α) (ys : List β)
    (p : α → β → Bool) (h : ∀ x ∈ xs, (ys.filter (p x)).length ≤ 1) :
    innerJoin xs ys p = xs.filterMap fun x => (ys.find? (p x)).map ((x, ·)) := by
  induction xs with
  | nil => rfl
  | cons x xs ih =>
    have hx := h x (by simp)
    have hrec := ih (fun a ha => h a (by simp [ha]))
    have hfe : (ys.filter (p x)) = (ys.find? (p x)).toList :=
      filter_eq_toList_find? (p x) ys hx
    simp only [innerJoin, List.flatMap_cons] at *
    rw [List.filterMap_cons, ← hrec, hfe]
    cases hf : ys.find? (p x) with
    | none => rfl
    | some y => rfl

/-- A list whose keys (under `key`) are pairwise distinct matches any key
at most once. -/
theorem filter_key_length_le_one {α κ : Type} [DecidableEq κ] (key : α → κ)
    (ys : List α) (h : (ys.map key).Nodup) (k : κ) :
    (ys.filter fun y => key y == k).length ≤ 1 := by
  induction ys with
  | nil => simp
  | cons y ys ih =>
    simp only [List.map_cons, List.nodup_cons] at h
    by_cases hy : key y = k
    · rw [List.filter_cons_of_pos (by simp [hy])]
      have : ys.filter (fun y => key y == k) = [] := by
        rw [List.filter_eq_nil_iff]
        intro a ha hcontra
        exact h.1 (by
          subst hy
          exact (List.mem_map.mpr ⟨a, ha, by simpa using hcontra⟩))
      simp [this]
    · rw [List.filter_cons_of_neg (by simp [hy])]
      exact ih h.2

/-! ## The Chinook data model

Rows of the tables used by the notebook's queries
(`src/Notebooks/sql_project_chinook.ipynb`).  Only the columns the
queries touch are modelled.  Key and foreign-key columns are `Nat`,
money amounts are `Rat`. -/

structure Genre where
  genre_id : Nat
  name : String
deriving DecidableEq

structure Track where
  track_id : Nat
  album_id : Nat
  genre_id : Nat
deriving DecidableEq

structure InvoiceLine where
  invoice_line_id : Nat
  invoice_id : Nat
  track_id : Nat
  quantity : Nat
deriving DecidableEq

structure Invoice where
  invoice_id : Nat
  customer_id : Nat
  total : Rat
deriving DecidableEq

structure Customer where
  customer_id : Nat
  support_rep_id : Nat
  first_name : String
  last_name : String
  country : String
deriving DecidableEq

structure Employee where
  employee_id : Nat
  first_name : String
  last_name : String
  hire_date : String
deriving DecidableEq

/-- A Chinook database: one list of rows per table used by the notebook. -/
structure ChinookDb where
  genre : List Genre
  track : List Track
  invoice_line : List InvoiceLine
  invoice : List Invoice
  customer : List Customer
  employee : List Employee
deriving DecidableEq

/-- `ROUND(x, d)` of SQLite: round to `d` decimal digits, halves away
from zero (all values in this development are nonnegative and far from
ties, where double and rational rounding agree). -/
def roundTo (d : Nat) (x : Rat) : Rat :=
  ((if x < 0 then -⌊-x * 10 ^ d + 1/2⌋ else ⌊x * 10 ^ d + 1/2⌋ : Int) : Rat) / 10 ^ d

/-! ## The genre-popularity query

```
WITH tracks_by_genre AS
  (SELECT g.name AS genre, CAST(SUM(il.quantity) AS float) AS tracks_sold
   FROM invoice_line AS il
   INNER JOIN track AS t ON t.track_id = il.track_id
   INNER JOIN genre AS g ON g.genre_id = t.genre_id
   GROUP BY genre)
SELECT genre, CAST(tracks_sold AS int) AS tracks_sold,
       ROUND(100*tracks_sold/(SELECT SUM(tracks_sold) FROM tracks_by_genre), 2)
         AS percentage
FROM tracks_by_genre ORDER BY tracks_sold DESC
```

Quantities are integers, so `SUM(il.quantity)`, its cast to float and
the cast back to int are all modelled by a `Nat` sum. -/

/-- The two INNER JOINs of the CTE: `invoice_line ⋈ track ⋈ genre`. -/
def genre_join_rows (db : ChinookDb) : List ((InvoiceLine × Track) × Genre) :=
  innerJoin
    (innerJoin db.invoice_line db.track fun il t => t.track_id == il.track_id)
    db.genre (fun r g => g.genre_id == r.2.genre_id)

/-- The CTE `tracks_by_genre`: `GROUP BY genre` (the genre *name*) with
`SUM(il.quantity)`.  SQL leaves the order of the groups unspecified; the
model lists them in the order `dedup` produces. -/
def tracks_by_genre (db : ChinookDb) : List (String × Nat) :=
  let rows := genre_join_rows db
  ((rows.map fun r => r.2.name).dedup).map fun g =>
    (g, ((rows.filter fun r => r.2.name == g).map fun r => r.1.1.quantity).sum)

/-- The main query over the CTE result: the derived `percentage` column
and `ORDER BY tracks_sold DESC`. -/
def genreMainQuery (counts : List (String × Nat)) : List (String × Nat × Rat) :=
  let total : Rat := (counts.map fun c => (c.2 : Rat)).sum
  List.insertionSort (fun a b => b.2.1 ≤ a.2.1)
    (counts.map fun c => (c.1, c.2, roundTo 2 (100 * (c.2 : Rat) / total)))

/-- The complete genre-popularity query. -/
def genre_query (db : ChinookDb) : List (String × Nat × Rat) :=
  genreMainQuery (tracks_by_genre db)

/-- Total of `tracks_sold` over all genres (the scalar subquery
`SELECT SUM(tracks_sold) FROM tracks_by_genre`). -/
def total_tracks_sold (db : ChinookDb) : Rat :=
  ((tracks_by_genre db).map fun c => (c.2 : Rat)).sum

/-- The genre an invoice line sells, resolved through `track` then
`genre` (used to state what the per-genre sums aggregate). -/
def line_genre_name (db : ChinookDb) (il : InvoiceLine) : Option String :=
  (db.track.find? fun t => t.track_id == il.track_id).bind fun t =>
    (db.genre.find? fun g => g.genre_id == t.genre_id).map (·.name)

/-- Sum of quantities over all invoice lines whose track belongs to the
genre named `g`. -/
def genre_line_sales (db : ChinookDb) (g : String) : Nat :=
  ((db.invoice_line.filter fun il => line_genre_name db il == some g).map
    (·.quantity)).sum

/-! ## The employee-performance query

```
SELECT e.first_name || " " || e.last_name AS employee_name,
       SUM(i.total) AS total_sales, e.hire_date
FROM invoice AS i
LEFT JOIN customer AS c ON c.customer_id = i.customer_id
LEFT JOIN employee AS e ON e.employee_id = c.support_rep_id
GROUP BY employee_name
```

`e.hire_date` is a bare column in a grouped query; SQLite takes it from
an unspecified row of each group, so it is not modelled (no claim
concerns it).  A failed LEFT JOIN yields a `none` employee and hence a
SQL-NULL group key, modelled as `none : Option String`. -/

def employee_name (e : Employee) : String := e.first_name ++ " " ++ e.last_name

/-- The joined rows `invoice ⟕ customer ⟕ employee`. -/
def employee_rows (db : ChinookDb) :
    List ((Invoice × Option Customer) × Option Employee) :=
  leftJoin
    (leftJoin db.invoice db.customer fun i c => c.customer_id == i.customer_id)
    db.employee fun r e =>
      match r.2 with
      | some c => e.employee_id == c.support_rep_id
      | none => false

/-- The `employee_name` group key of a joined row (`NULL` if the joins
failed, since `e.first_name || " " || e.last_name` is then NULL). -/
def row_employee_name (r : (Invoice × Option Customer) × Option Employee) :
    Option String :=
  r.2.map employee_name

/-- The grouped query: one row per `employee_name` key with
`SUM(i.total)`. -/
def employee_query (db : ChinookDb) : List (Option String × Rat) :=
  let rows := employee_rows db
  ((rows.map row_employee_name).dedup).map fun k =>
    (k, ((rows.filter fun r => row_employee_name r == k).map
          fun r => r.1.1.total).sum)

/-- The employee serving an invoice, resolved through `customer`
(used to state what the per-employee sums aggregate). -/
def invoice_employee (db : ChinookDb) (i : Invoice) : Option Employee :=
  (db.customer.find? fun c => c.customer_id == i.customer_id).bind fun c =>
    db.employee.find? fun e => e.employee_id == c.support_rep_id

def invoice_employee_name (db : ChinookDb) (i : Invoice) : Option String :=
  (invoice_employee db i).map employee_name

/-! ## The country-statistics query

The views:

```
CREATE VIEW order_by_country AS
  SELECT i.total, c.customer_id,
         c.first_name || " " || c.last_name AS customer_name, c.country
  FROM invoice AS i
  LEFT JOIN customer AS c ON c.customer_id = i.customer_id;

CREATE VIEW stats_by_country AS
  SELECT country, COUNT(DISTINCT customer_id) AS number_of_customers,
         ROUND(SUM(total),2) AS total_sales,
         COUNT(customer_id) AS number_of_orders, ... AS sales_per_customer
  FROM order_by_country GROUP BY country;
```

(The view's `sales_per_customer` column comes from a scalar subquery
with its own GROUP BY, whose value SQLite takes from an unspecified
first row; the final query never reads the view column — it recomputes
`total_sales/number_of_customers` — so the column is not modelled.)

The final query:

```
SELECT country, number_of_customers, total_sales, sales_per_customer,
       sales_per_order
FROM (SELECT country, number_of_customers, total_sales,
             total_sales/number_of_customers AS sales_per_customer,
             ROUND(total_sales/number_of_orders,2) AS sales_per_order,
             "A" AS sorting
      FROM stats_by_country WHERE number_of_customers > 1
      UNION
      SELECT "Other", SUM(number_of_customers), SUM(total_sales),
             SUM(total_sales)/SUM(number_of_customers),
             SUM(ROUND(total_sales/number_of_orders,2)) AS sales_per_order,
             "B" AS sorting
      FROM stats_by_country WHERE number_of_customers = 1)
ORDER BY sorting, total_sales DESC
```
-/

/-- The view `order_by_country`: `invoice ⟕ customer`. -/
def order_by_country (db : ChinookDb) : List (Invoice × Option Customer) :=
  leftJoin db.invoice db.customer fun i c => c.customer_id == i.customer_id

/-- The `country` column of a view row (`NULL` when the join failed). -/
def row_country (r : Invoice × Option Customer) : Option String :=
  r.2.map (·.country)

/-- The `customer_id` column of a view row. -/
def row_customer_id (r : Invoice × Option Customer) : Option Nat :=
  r.2.map (·.customer_id)

/-- The `GROUP BY country` keys of `stats_by_country`. -/
def country_keys (db : ChinookDb) : List (Option String) :=
  ((order_by_country db).map row_country).dedup

/-- The view rows of one country group. -/
def country_rows (db : ChinookDb) (k : Option String) :
    List (Invoice × Option Customer) :=
  (order_by_country db).filter fun r => row_country r == k

/-- `COUNT(DISTINCT customer_id)` of a group (SQL COUNT ignores NULLs). -/
def number_of_customers (db : ChinookDb) (k : Option String) : Nat :=
  (((country_rows db k).filterMap row_customer_id).dedup).length

/-- `ROUND(SUM(total),2)` of a group. -/
def country_total_sales (db : ChinookDb) (k : Option String) : Rat :=
  roundTo 2 ((country_rows db k).map fun r => r.1.total).sum

/-- `COUNT(customer_id)` of a group (counts non-NULL values). -/
def number_of_orders (db : ChinookDb) (k : Option String) : Nat :=
  ((country_rows db k).filterMap row_customer_id).length

/-- A row of the subquery feeding the final SELECT; `sorting` is the
sixth column, dropped by the outer projection. -/
structure CountryRow where
  country : Option String
  number_of_customers : Option Nat
  total_sales : Option Rat
  sales_per_customer : Option Rat
  sales_per_order : Option Rat
  sorting : String
deriving DecidableEq

/-- SQL `SUM` over a group: NULL on the empty group. -/
def sqlSumN (l : List Nat) : Option Nat :=
  match l with
  | [] => none
  | _ => some l.sum

/-- SQL `SUM` over a group: NULL on the empty group. -/
def sqlSumQ (l : List Rat) : Option Rat :=
  match l with
  | [] => none
  | _ => some l.sum

/-- SQL division, NULL-propagating. -/
def sqlDiv (a : Option Rat) (b : Option Nat) : Option Rat :=
  match a, b with
  | some x, some y => some (x / y)
  | _, _ => none

/-- A row of the `"A"` branch (`WHERE number_of_customers > 1`). -/
def country_a_row (db : ChinookDb) (k : Option String) : CountryRow :=
  { country := k
    number_of_customers := some (number_of_customers db k)
    total_sales := some (country_total_sales db k)
    sales_per_customer :=
      some (country_total_sales db k / (number_of_customers db k : Rat))
    sales_per_order :=
      some (roundTo 2 (country_total_sales db k / (number_of_orders db k : Rat)))
    sorting := "A" }

/-- The countries collapsed into `"Other"` (`number_of_customers = 1`). -/
def single_countries (db : ChinookDb) : List (Option String) :=
  (country_keys db).filter fun k => number_of_customers db k == 1

/-- The countries kept as their own rows (`number_of_customers > 1`). -/
def multi_countries (db : ChinookDb) : List (Option String) :=
  (country_keys db).filter fun k => 1 < number_of_customers db k

/-- The single `"Other"` row produced by the second UNION branch. -/
def other_row (db : ChinookDb) : CountryRow :=
  let singles := single_countries db
  { country := some "Other"
    number_of_customers := sqlSumN (singles.map (number_of_customers db))
    total_sales := sqlSumQ (singles.map (country_total_sales db))
    sales_per_customer :=
      sqlDiv (sqlSumQ (singles.map (country_total_sales db)))
        (sqlSumN (singles.map (number_of_customers db)))
    sales_per_order :=
      sqlSumQ (singles.map fun k =>
        roundTo 2 (country_total_sales db k / (number_of_orders db k : Rat)))
    sorting := "B" }

/-- The UNION of the two branches (UNION removes duplicate rows). -/
def country_union_rows (db : ChinookDb) : List CountryRow :=
  ((multi_countries db).map (country_a_row db) ++ [other_row db]).dedup

/-- `ORDER BY sorting, total_sales DESC` (SQLite sorts NULLs first in
ascending order, hence last in descending order). -/
def countryRowLe (a b : CountryRow) : Bool :=
  if a.sorting = b.sorting then
    match a.total_sales, b.total_sales with
    | some x, some y => y ≤ x
    | some _, none => true
    | none, some _ => false
    | none, none => true
  else a.sorting < b.sorting

/-- The final query result: sorted UNION rows, projected onto the five
output columns (dropping `sorting`). -/
def country_query (db : ChinookDb) :
    List (Option String × Option Nat × Option Rat × Option Rat × Option Rat) :=
  (List.insertionSort (fun a b => countryRowLe a b = true)
      (country_union_rows db)).map fun r =>
    (r.country, r.number_of_customers, r.total_sales, r.sales_per_customer,
      r.sales_per_order)

/-! ## The album-purchase query

```
WITH invoice_album AS
  (SELECT il.invoice_id, il.invoice_line_id, il.track_id, t.album_id
   FROM invoice_line il LEFT JOIN track t ON t.track_id = il.track_id),
  album_lengths AS
  (SELECT album_id, COUNT(DISTINCT track_id) AS album_length
   FROM track GROUP BY album_id)
SELECT album_purchase, COUNT(invoice_id) AS number_of_invoices,
       ROUND(CAST(COUNT(invoice_id) AS float)
             / (SELECT COUNT(invoice_id) FROM invoice), 3) AS percent
FROM (SELECT ia.invoice_id, COUNT(DISTINCT ia.album_id) AS num_albums,
             COUNT(DISTINCT ia.track_id) AS distinct_songs,
             MAX(ia.album_id) AS album_id, al.album_length,
             "yes" AS album_purchase
      FROM invoice_album ia
      LEFT JOIN album_lengths al ON al.album_id = ia.album_id
      GROUP BY invoice_id
      HAVING (num_albums = 1) AND (distinct_songs = album_length)
      UNION
      SELECT ..., "no" AS album_purchase
      ... HAVING (num_albums != 1) OR (distinct_songs != album_length))
GROUP BY album_purchase
```

The grouped subquery selects the bare column `al.album_length`; since the
query contains exactly one `MAX` aggregate, SQLite takes bare columns
from a row achieving `MAX(ia.album_id)`, so `album_length` is the length
of the group's largest `album_id` (and SQL-NULL when every `album_id`
of the group is NULL, because the `al` join then failed on that row).
A NULL `album_length` makes both HAVING comparisons NULL, dropping the
invoice from both branches. -/

/-- A row of the CTE `invoice_album` (`album_id` is NULL when the LEFT
JOIN to `track` found no row). -/
structure IARow where
  invoice_id : Nat
  invoice_line_id : Nat
  track_id : Nat
  album_id : Option Nat
deriving DecidableEq

/-- The CTE `invoice_album`: `invoice_line ⟕ track`. -/
def invoice_album (db : ChinookDb) : List IARow :=
  (leftJoin db.invoice_line db.track fun il t => t.track_id == il.track_id).map
    fun r => ⟨r.1.invoice_id, r.1.invoice_line_id, r.1.track_id,
              r.2.map (·.album_id)⟩

/-- The CTE `album_lengths` as a function: `COUNT(DISTINCT track_id)`
of the tracks of album `a` (every `album_id` reachable from a track is a
group of the CTE, so the LEFT JOIN to it always matches on non-NULL
`album_id`). -/
def album_length (db : ChinookDb) (a : Nat) : Nat :=
  (((db.track.filter fun t => t.album_id == a).map (·.track_id)).dedup).length

/-- The `GROUP BY invoice_id` keys (invoices owning at least one line). -/
def invoiceIds (db : ChinookDb) : List Nat :=
  ((invoice_album db).map (·.invoice_id)).dedup

/-- The `invoice_album` rows of one invoice group. -/
def invoice_rows (db : ChinookDb) (inv : Nat) : List IARow :=
  (invoice_album db).filter fun r => r.invoice_id == inv

/-- `COUNT(DISTINCT ia.album_id)` (NULLs ignored). -/
def num_albums (db : ChinookDb) (inv : Nat) : Nat :=
  (((invoice_rows db inv).filterMap (·.album_id)).dedup).length

/-- `COUNT(DISTINCT ia.track_id)`. -/
def distinct_songs (db : ChinookDb) (inv : Nat) : Nat :=
  (((invoice_rows db inv).map (·.track_id)).dedup).length

/-- The `al.album_length` bare column of the group: the length of the
album achieving `MAX(ia.album_id)`, NULL when all `album_id`s are NULL. -/
def picked_album_length (db : ChinookDb) (inv : Nat) : Option Nat :=
  (((invoice_rows db inv).filterMap (·.album_id)).max?).map (album_length db)

/-- `HAVING (num_albums = 1) AND (distinct_songs = album_length)` — a
NULL `album_length` makes the comparison NULL, i.e. not satisfied. -/
def yes_condition (db : ChinookDb) (inv : Nat) : Bool :=
  num_albums db inv == 1 &&
    match picked_album_length db inv with
    | some l => distinct_songs db inv == l
    | none => false

/-- `HAVING (num_albums != 1) OR (distinct_songs != album_length)`. -/
def no_condition (db : ChinookDb) (inv : Nat) : Bool :=
  num_albums db inv != 1 ||
    match picked_album_length db inv with
    | some l => distinct_songs db inv != l
    | none => false

/-- The UNION feeding the outer `GROUP BY album_purchase`, restricted to
its `(invoice_id, album_purchase)` columns (the rows of the two branches
are distinguished by that pair, so UNION's duplicate removal drops
nothing). -/
def album_purchase_rows (db : ChinookDb) : List (Nat × String) :=
  (((invoiceIds db).filter fun i => yes_condition db i).map fun i => (i, "yes"))
    ++ ((invoiceIds db).filter fun i => no_condition db i).map fun i => (i, "no")

/-- The outer aggregation: per classification label, `COUNT(invoice_id)`
and `ROUND(count / (SELECT COUNT(invoice_id) FROM invoice), 3)`. -/
def album_purchase_summary (db : ChinookDb) : List (String × Nat × Rat) :=
  let rows := album_purchase_rows db
  (((rows.map (·.2)).dedup).map fun lab =>
    ((rows.filter fun r => r.2 == lab).length, lab)).map fun c =>
    (c.2, c.1, roundTo 3 ((c.1 : Rat) / (db.invoice.length : Rat)))

/-! Definitions used to *state* the album-purchase claim. -/

/-- The invoice lines of one invoice. -/
def invoice_lines (db : ChinookDb) (inv : Nat) : List InvoiceLine :=
  db.invoice_line.filter fun il => il.invoice_id == inv

/-- The album a line's track belongs to, if the track exists. -/
def line_album (db : ChinookDb) (il : InvoiceLine) : Option Nat :=
  (db.track.find? fun t => t.track_id == il.track_id).map (·.album_id)

/-- The distinct albums among the tracks on an invoice's lines. -/
def invoice_albums (db : ChinookDb) (inv : Nat) : List Nat :=
  ((invoice_lines db inv).filterMap (line_album db)).dedup

/-- The number of distinct `track_id`s on an invoice's lines. -/
def invoice_distinct_tracks (db : ChinookDb) (inv : Nat) : Nat :=
  (((invoice_lines db inv).map (·.track_id)).dedup).length

/-- The claim's classification rule: a single distinct album, whose full
track list was bought. -/
def claim_album_purchase (db : ChinookDb) (inv : Nat) : Prop :=
  ∃ a, invoice_albums db inv = [a] ∧
    invoice_distinct_tracks db inv = album_length db a

instance (db : ChinookDb) (inv : Nat) :
    Decidable (claim_album_purchase db inv) := by
  unfold claim_album_purchase
  exact decidable_of_iff
    (invoice_albums db inv ≠ [] ∧
      ∃ a ∈ invoice_albums db inv, invoice_albums db inv = [a] ∧
        invoice_distinct_tracks db inv = album_length db a)
    (by
      constructor
      · rintro ⟨-, a, -, h⟩; exact ⟨a, h⟩
      · rintro ⟨a, h1, h2⟩
        exact ⟨by simp [h1], a, by simp [h1], ⟨h1, h2⟩⟩)

/-! ## The captured Chinook result sets

The fixture database `data/chinook.db` is not part of `src/`; only the
notebook's captured outputs are.  The per-genre sales counts and the
per-class invoice counts below transcribe those captured outputs, and
stand in for the fixture. -/

/-- Modelled from the spec: the `data/chinook.db` fixture database is
not included in the repository sources, so it is represented by the
aggregate the notebook captured — the per-genre `tracks_sold` counts of
the `tracks_by_genre` CTE (execution 6 of the Chinook notebook). -/
def capturedGenreCounts : List (String × Nat) :=
  [("Rock", 2635), ("Metal", 619), ("Alternative & Punk", 492),
   ("Latin", 167), ("R&B/Soul", 159), ("Blues", 124), ("Jazz", 121),
   ("Alternative", 117), ("Easy Listening", 74), ("Pop", 63),
   ("Electronica/Dance", 55), ("Classical", 47), ("Reggae", 35),
   ("Hip Hop/Rap", 33), ("Heavy Metal", 8), ("Soundtrack", 5),
   ("TV Shows", 2), ("Drama", 1)]

/-- The genre table the notebook captured: name, `tracks_sold`,
`percentage` (execution 6 of the Chinook notebook). -/
def capturedGenreTable : List (String × Nat × Rat) :=
  [("Rock", 2635, 55.39), ("Metal", 619, 13.01),
   ("Alternative & Punk", 492, 10.34), ("Latin", 167, 3.51),
   ("R&B/Soul", 159, 3.34), ("Blues", 124, 2.61), ("Jazz", 121, 2.54),
   ("Alternative", 117, 2.46), ("Easy Listening", 74, 1.56),
   ("Pop", 63, 1.32), ("Electronica/Dance", 55, 1.16),
   ("Classical", 47, 0.99), ("Reggae", 35, 0.74), ("Hip Hop/Rap", 33, 0.69),
   ("Heavy Metal", 8, 0.17), ("Soundtrack", 5, 0.11), ("TV Shows", 2, 0.04),
   ("Drama", 1, 0.02)]

/-- Modelled from the spec: the album-purchase classification counts the
notebook captured over the fixture — 114 `yes` invoices, 500 `no`
invoices, 614 invoices in total (execution 16 of the Chinook notebook;
the spec: "114 yes invoices out of 614"). -/
def capturedAlbumCounts : Nat × Nat × Nat := (114, 500, 614)

/-- The outer `percent` column of the album-purchase query as a function
of a class count and the total invoice count:
`ROUND(CAST(COUNT(invoice_id) AS float)/(SELECT COUNT(invoice_id) FROM
invoice), 3)`. -/
def album_percent (count total : Nat) : Rat :=
  roundTo 3 ((count : Rat) / (total : Rat))

/-! ## The crime-report notebook

`src/Notebooks/crime_report_database.ipynb` is a straight-line script:
every cell issues psycopg2 calls with no `try`/`except`, no loops over
statements, no retries.  The cells are transcribed below as a list of
steps; `guarded` records whether a step sits inside an exception
handler (it never does). -/

/-- A SQL statement executed through `cur.execute` in the crime-report
notebook (summarised by kind and arguments; `selectQuery` carries the
queried relation). -/
inductive CrimeStmt where
  | dropDatabaseIfExists (name : String)
  | dropGroupIfExists (name : String)
  | dropUserIfExists (name : String)
  | createDatabase (name : String)
  | createSchema (name : String)
  | createType (name : String) (labels : List String)
  | createTable (name : String)
  | revokeAllOnSchema (schema target : String)
  | revokeAllOnDatabase (db target : String)
  | createGroup (name : String) (nologin : Bool)
  | grantConnect (db target : String)
  | grantUsageOnSchema (schema target : String)
  | grantTablePrivileges (privileges : List String) (schema target : String)
  | createUser (name password : String)
  | grantRole (role target : String)
  | selectQuery (relation : String)
deriving DecidableEq

/-- A psycopg2-level event of the crime-report notebook. -/
inductive CrimeEvent where
  | connect (dbname : String) (autocommit : Bool)
  | close
  | commit
  | exec (s : CrimeStmt)
  | copyExpert (table file : String)
  | fetch
deriving DecidableEq

/-- One step of a notebook: the event it performs and whether it is
guarded by an exception handler. -/
structure NbStep (σ : Type) where
  ev : σ
  guarded : Bool
deriving DecidableEq

/-- An unguarded step (all cells of both notebooks are straight-line
code with no `try`/`except`). -/
def ustep {σ : Type} (e : σ) : NbStep σ := ⟨e, false⟩

/-- The crime-report notebook, cell by cell. -/
def crime_steps : List (NbStep CrimeEvent) :=
  [ -- cell 1: preamble dropping everything later cells create
   ustep (.connect "postgres" true),
   ustep (.exec (.dropDatabaseIfExists "crime_db")),
   ustep (.exec (.dropGroupIfExists "readonly")),
   ustep (.exec (.dropGroupIfExists "readwrite")),
   ustep (.exec (.dropUserIfExists "data_analyst")),
   ustep (.exec (.dropUserIfExists "data_scientist")),
   ustep .close,
   -- cell 2: create the database
   ustep (.connect "postgres" true),
   ustep (.exec (.createDatabase "crime_db")),
   ustep .close,
   -- cell 3: connect to it and create the schema
   ustep (.connect "crime_db" false),
   ustep (.exec (.createSchema "crimes")),
   -- cells 4-8 are pure-Python CSV exploration (no database events)
   -- cell 9: the weekday enumerated type
   ustep (.exec (.createType "weekday_enum"
     ["Sunday", "Monday", "Tuesday", "Wednesday", "Thursday", "Friday",
      "Saturday"])),
   -- cell 10: the table
   ustep (.exec (.createTable "crimes.boston_crimes")),
   -- cell 11: bulk copy of the CSV
   ustep (.copyExpert "crimes.boston_crimes" "data/boston.csv"),
   -- cell 12: sanity SELECT
   ustep (.exec (.selectQuery "crimes.boston_crimes")),
   ustep .fetch,
   -- cell 16: revoke public privileges
   ustep (.exec (.revokeAllOnSchema "public" "public")),
   ustep (.exec (.revokeAllOnDatabase "crime_db" "public")),
   -- cell 17: groups and their grants (GRANT USAGE to readonly appears
   -- twice in the source cell; readwrite never receives USAGE)
   ustep (.exec (.createGroup "readonly" true)),
   ustep (.exec (.createGroup "readwrite" true)),
   ustep (.exec (.grantConnect "crime_db" "readonly")),
   ustep (.exec (.grantConnect "crime_db" "readwrite")),
   ustep (.exec (.grantUsageOnSchema "crimes" "readonly")),
   ustep (.exec (.grantUsageOnSchema "crimes" "readonly")),
   ustep (.exec (.grantTablePrivileges ["SELECT"] "crimes" "readonly")),
   ustep (.exec (.grantTablePrivileges ["SELECT", "INSERT", "DELETE", "UPDATE"]
     "crimes" "readwrite")),
   -- cell 18: users
   ustep (.exec (.createUser "data_analyst" "abc")),
   ustep (.exec (.grantRole "readonly" "data_analyst")),
   ustep (.exec (.createUser "data_scientist" "123")),
   ustep (.exec (.grantRole "readwrite" "data_scientist")),
   -- cell 19: commit and close
   ustep .commit,
   ustep .close,
   -- cell 20: testing section opens a fourth connection (never closed)
   ustep (.connect "crime_db" false),
   ustep (.exec (.selectQuery "information_schema.schemata")),
   ustep .fetch,
   -- cell 21
   ustep (.exec (.selectQuery "information_schema.tables")),
   ustep .fetch,
   -- cell 22
   ustep (.exec (.selectQuery "information_schema.applicable_roles")),
   ustep .fetch,
   -- cell 23
   ustep (.exec (.selectQuery "information_schema.table_privileges")),
   ustep .fetch]

/-- A SQL statement executed through the `%%sql` magic in the Chinook
notebook (which manages its SQLite connection implicitly; the notebook
itself never opens or closes a connection object). -/
inductive ChinookStmt where
  | dropViewIfExists (name : String)
  | createView (name : String)
  | listTablesQuery
  | genreQueryStmt
  | employeeQueryStmt
  | countryQueryStmt
  | albumQueryStmt
deriving DecidableEq

/-- The Chinook notebook's SQL cells, statement by statement. -/
def chinook_steps : List (NbStep ChinookStmt) :=
  [ -- cell 2: drop the views re-created later, list tables
   ustep (.dropViewIfExists "order_by_country"),
   ustep (.dropViewIfExists "stats_by_country"),
   ustep .listTablesQuery,
   -- execution 6: genre popularity
   ustep .genreQueryStmt,
   -- execution 8: employee performance
   ustep .employeeQueryStmt,
   -- execution 9: the two views
   ustep (.dropViewIfExists "order_by_country"),
   ustep (.createView "order_by_country"),
   ustep (.dropViewIfExists "stats_by_country"),
   ustep (.createView "stats_by_country"),
   -- execution 15: country statistics
   ustep .countryQueryStmt,
   -- execution 16: album purchases
   ustep .albumQueryStmt]

/-- Sequential execution of a notebook's steps from index `i`: `fail`
tells which step indices raise (and with what driver error).  An
unguarded failing step aborts with exactly the driver's error; a guarded
one would swallow it and continue (no step of either notebook is
guarded).  A successful run returns the trace of performed events. -/
def runSteps {σ : Type} (fail : Nat → Option String) :
    List (NbStep σ) → Nat → Except String (List σ)
  | [], _ => .ok []
  | s :: rest, i =>
    match fail i with
    | some e =>
        if s.guarded then runSteps fail rest (i + 1) else .error e
    | none => (runSteps fail rest (i + 1)).map fun tr => s.ev :: tr

/-- Number of `psycopg2.connect` calls in a crime-notebook event list. -/
def connectCount (evs : List CrimeEvent) : Nat :=
  evs.countP fun e =>
    match e with
    | .connect _ _ => true
    | _ => false

/-- Number of `conn.close()` calls. -/
def closeCount (evs : List CrimeEvent) : Nat :=
  evs.countP fun e =>
    match e with
    | .close => true
    | _ => false

/-- The subsequence of connection-management events: `true` per connect,
`false` per close. -/
def connCloseTrace (evs : List CrimeEvent) : List Bool :=
  evs.filterMap fun e =>
    match e with
    | .connect _ _ => some true
    | .close => some false
    | _ => none

/-- The DDL/DCL statements (and the bulk copy) of an event list, in
execution order: everything except connection management, SELECTs and
fetches. -/
def ddlDclTrace (evs : List CrimeEvent) : List CrimeEvent :=
  evs.filter fun e =>
    match e with
    | .exec (.selectQuery _) => false
    | .exec _ => true
    | .copyExpert _ _ => true
    | _ => false

/-- The events of the crime-report notebook. -/
def crime_events : List CrimeEvent := crime_steps.map (·.ev)

/-! ## `get_col_set` and the CSV bulk load

```
def get_col_set(file_path, col_index):
    col_set = set()
    with open(file_path) as f:
        next(f)
        reader = csv.reader(f)
        for row in reader:
            col_set.add(row[col_index])
    return col_set
```

A CSV file is modelled as its list of records (lists of field strings).
`next(f)` drops the first record; a `row[col_index]` out of range raises
`IndexError`, modelled by `none`; the Python `set` is a `Finset`. -/

def get_col_set (file : List (List String)) (col_index : Nat) :
    Option (Finset String) :=
  match file with
  | [] => none
  | _ :: rows =>
      rows.foldlM (fun s row => (row.get? col_index).map fun v => insert v s) ∅

/-- Modelled from the spec: the Postgres engine executing
`COPY crimes.boston_crimes FROM STDIN WITH CSV HEADER;` is not part of
the repository; per the spec it bulk-loads the CSV rows verbatim,
skipping the header record. -/
def copy_csv_rows (file : List (List String)) : List (List String) :=
  file.drop 1

/-! ## Shared auxiliary lemmas -/

theorem obeq_some_some {α : Type} [BEq α] (a b : α) :
    ((some a == some b : Bool)) = (a == b) := rfl

theorem obeq_none_some {α : Type} [BEq α] (b : α) :
    (((none : Option α) == some b : Bool)) = false := rfl

theorem sqlSumN_of_ne_nil {l : List Nat} (h : l ≠ []) :
    sqlSumN l = some l.sum := by
  cases l with
  | nil => exact absurd rfl h
  | cons a l => rfl

theorem sqlSumQ_of_ne_nil {l : List Rat} (h : l ≠ []) :
    sqlSumQ l = some l.sum := by
  cases l with
  | nil => exact absurd rfl h
  | cons a l => rfl

/-- A run of steps none of which is guarded stops at the first failing
index with exactly the injected error. -/
theorem runSteps_error {σ : Type} (fail : Nat → Option String) (e : String) :
    ∀ (steps : List (NbStep σ)) (i0 i : Nat),
      (∀ s ∈ steps, s.guarded = false) →
      i0 ≤ i → i - i0 < steps.length → fail i = some e →
      (∀ j, i0 ≤ j → j < i → fail j = none) →
      runSteps fail steps i0 = .error e := by
  intro steps
  induction steps with
  | nil => intro i0 i _ _ h; simp at h
  | cons s rest ih =>
    intro i0 i hg hle hlt hfi hbef
    by_cases h0 : i = i0
    · subst h0
      simp only [runSteps, hfi, hg s (by simp)]
      rfl
    · have hlt0 : i0 < i := lt_of_le_of_ne hle (fun h => h0 h.symm)
      have hf0 : fail i0 = none := hbef i0 le_rfl hlt0
      simp only [runSteps, hf0]
      rw [ih (i0 + 1) i (fun a ha => hg a (by simp [ha])) hlt0
        (by simp only [List.length_cons] at hlt; omega) hfi
        (fun j hj1 hj2 => hbef j (Nat.le_of_succ_le hj1) hj2)]
      rfl

/-- A failure-free run performs every event in order. -/
theorem runSteps_ok {σ : Type} :
    ∀ (steps : List (NbStep σ)) (i0 : Nat),
      runSteps (fun _ => none) steps i0 = .ok (steps.map (·.ev)) := by
  intro steps
  induction steps with
  | nil => intro i0; rfl
  | cons s rest ih => intro i0; simp only [runSteps, ih (i0 + 1)]; rfl

/-! ## Claims about the crime-report notebook's statement sequence -/

/-- C10: the crime-report notebook's group-creation cell grants `USAGE`
on schema `crimes` to `readonly` twice and never to `readwrite`, even
though `readwrite` receives `SELECT, INSERT, DELETE, UPDATE` on all
tables of the schema — so the script leaves `readwrite` without
schema-level usage privilege. -/
theorem C10_grant_usage_asymmetry :
    crime_events.count (.exec (.grantUsageOnSchema "crimes" "readonly")) = 2 ∧
    (crime_events.countP fun e =>
      match e with
      | .exec (.grantUsageOnSchema _ "readwrite") => true
      | _ => false) = 0 ∧
    crime_events.count
      (.exec (.grantTablePrivileges ["SELECT", "INSERT", "DELETE", "UPDATE"]
        "crimes" "readwrite")) = 1 := by
  decide

/-- C4 counterexample: the claim "exactly one connection is opened ...
and every opened connection is closed" is false of the crime-report
notebook, which performs four `psycopg2.connect` calls and only three
`conn.close()` calls. -/
theorem C4_counterexample :
    ¬ (connectCount crime_events = 1 ∧
       closeCount crime_events = connectCount crime_events) := by
  decide

/-- C4 (amended): the crime-report notebook opens four connections; the
first three are each closed (the first two right after their statements,
the third after the commit) and the fourth — opened for the testing
section — is never closed.  No step of either notebook is guarded by an
exception handler (no pooling, retry or timeout handling).  The Chinook
notebook contains no explicit connection management at all (its SQLite
connection is handled by the `%%sql` magic). -/
theorem C4_amended_connections :
    connCloseTrace crime_events = [true, false, true, false, true, false, true] ∧
    connectCount crime_events = 4 ∧
    closeCount crime_events = 3 ∧
    crime_steps.all (fun s => !s.guarded) = true ∧
    chinook_steps.all (fun s => !s.guarded) = true := by
  decide

/-- C5 counterexample: the DDL/DCL statements are *not* executed exactly
once each — `GRANT USAGE ON SCHEMA crimes TO readonly;` occurs twice in
the group-creation cell. -/
theorem C5_counterexample :
    ¬ (∀ e ∈ ddlDclTrace crime_events, (ddlDclTrace crime_events).count e ≤ 1) := by
  decide

/-- C5 (amended): the crime-report notebook executes exactly this
DDL/DCL sequence, in this order — the five DROP-IF-EXISTS preamble
statements, create database, create schema, create enum type, create
table, bulk copy, the two revokes, the two group creations, the grants
(with `GRANT USAGE ... TO readonly` issued twice), and the two user
creations with their role grants; every statement other than that
duplicated grant occurs exactly once, and no step is guarded or
retried. -/
theorem C5_amended_ddl_sequence :
    ddlDclTrace crime_events =
      [.exec (.dropDatabaseIfExists "crime_db"),
       .exec (.dropGroupIfExists "readonly"),
       .exec (.dropGroupIfExists "readwrite"),
       .exec (.dropUserIfExists "data_analyst"),
       .exec (.dropUserIfExists "data_scientist"),
       .exec (.createDatabase "crime_db"),
       .exec (.createSchema "crimes"),
       .exec (.createType "weekday_enum"
         ["Sunday", "Monday", "Tuesday", "Wednesday", "Thursday", "Friday",
          "Saturday"]),
       .exec (.createTable "crimes.boston_crimes"),
       .copyExpert "crimes.boston_crimes" "data/boston.csv",
       .exec (.revokeAllOnSchema "public" "public"),
       .exec (.revokeAllOnDatabase "crime_db" "public"),
       .exec (.createGroup "readonly" true),
       .exec (.createGroup "readwrite" true),
       .exec (.grantConnect "crime_db" "readonly"),
       .exec (.grantConnect "crime_db" "readwrite"),
       .exec (.grantUsageOnSchema "crimes" "readonly"),
       .exec (.grantUsageOnSchema "crimes" "readonly"),
       .exec (.grantTablePrivileges ["SELECT"] "crimes" "readonly"),
       .exec (.grantTablePrivileges ["SELECT", "INSERT", "DELETE", "UPDATE"]
         "crimes" "readwrite"),
       .exec (.createUser "data_analyst" "abc"),
       .exec (.grantRole "readonly" "data_analyst"),
       .exec (.createUser "data_scientist" "123"),
       .exec (.grantRole "readwrite" "data_scientist")] ∧
    (∀ e ∈ ddlDclTrace crime_events,
      e ≠ .exec (.grantUsageOnSchema "crimes" "readonly") →
        (ddlDclTrace crime_events).count e = 1) ∧
    crime_steps.all (fun s => !s.guarded) = true := by
  decide

/-- C8: any driver failure at any step of either notebook propagates to
the caller unchanged — the run aborts with exactly the injected error,
because no step catches, classifies, retries or recovers (and a
failure-free run just performs every event in order). -/
theorem C8_failures_propagate :
    (∀ (fail : Nat → Option String) (i : Nat) (e : String),
      i < crime_steps.length → fail i = some e →
      (∀ j, j < i → fail j = none) →
      runSteps fail crime_steps 0 = .error e) ∧
    (∀ (fail : Nat → Option String) (i : Nat) (e : String),
      i < chinook_steps.length → fail i = some e →
      (∀ j, j < i → fail j = none) →
      runSteps fail chinook_steps 0 = .error e) ∧
    runSteps (fun _ => none) crime_steps 0 = .ok crime_events ∧
    runSteps (fun _ => none) chinook_steps 0 = .ok (chinook_steps.map (·.ev)) := by
  refine ⟨fun fail i e hi hf hb => ?_, fun fail i e hi hf hb => ?_, ?_, ?_⟩
  · exact runSteps_error fail e crime_steps 0 i (by decide) (Nat.zero_le i)
      (by simpa using hi) hf (fun j _ hj => hb j hj)
  · exact runSteps_error fail e chinook_steps 0 i (by decide) (Nat.zero_le i)
      (by simpa using hi) hf (fun j _ hj => hb j hj)
  · exact runSteps_ok crime_steps 0
  · exact runSteps_ok chinook_steps 0

/-- C8 witness: a failure injected at the first step of either notebook
aborts the run with exactly that error. -/
theorem C8_failures_propagate_witness :
    runSteps (fun i => if i = 0 then some "FATAL: password authentication failed"
      else none) crime_steps 0 = .error "FATAL: password authentication failed" ∧
    runSteps (fun i => if i = 0 then some "no such table: foo" else none)
      chinook_steps 0 = .error "no such table: foo" := by
  exact ⟨C8_failures_propagate.1 _ 0 _ (by decide) rfl (fun j hj => absurd hj (Nat.not_lt_zero j)),
         C8_failures_propagate.2.1 _ 0 _ (by decide) rfl (fun j hj => absurd hj (Nat.not_lt_zero j))⟩

/-- C3: on the captured per-genre sales counts, the genre query's main
SELECT (percentage computation and `ORDER BY tracks_sold DESC`)
reproduces exactly the captured genre table, whose first row is Rock
with `tracks_sold = 2635` and `percentage = 55.39`; and the captured
album-purchase classification — 114 `yes` and 500 `no` — covers all 614
invoices, with the query's `percent` column reproducing the captured
0.186 and 0.814. -/
theorem C3_captured_result_sets :
    genreMainQuery capturedGenreCounts = capturedGenreTable ∧
    capturedGenreTable.head? = some ("Rock", 2635, 55.39) ∧
    capturedAlbumCounts.1 + capturedAlbumCounts.2.1 = capturedAlbumCounts.2.2 ∧
    album_percent capturedAlbumCounts.1 capturedAlbumCounts.2.2 = 0.186 ∧
    album_percent capturedAlbumCounts.2.1 capturedAlbumCounts.2.2 = 0.814 := by
  refine ⟨?_, rfl, rfl, ?_, ?_⟩
  · norm_num [genreMainQuery, capturedGenreCounts, capturedGenreTable,
      List.insertionSort, List.orderedInsert, roundTo]
  · norm_num [album_percent, capturedAlbumCounts, roundTo]
  · norm_num [album_percent, capturedAlbumCounts, roundTo]

/-- Folding set insertions over rows whose selected column exists
collects exactly the column's values. -/
theorem foldlM_insert_eq (ci : Nat) :
    ∀ (rows : List (List String)), (∀ r ∈ rows, ci < r.length) →
      ∀ (init : Finset String),
        ∃ s, rows.foldlM (fun s row => (row.get? ci).map fun v => insert v s)
              init = some s ∧
          ∀ v, v ∈ s ↔ (v ∈ init ∨ ∃ r ∈ rows, r.get? ci = some v) := by
  intro rows
  induction rows with
  | nil =>
    intro _ init
    exact ⟨init, rfl, by simp⟩
  | cons r rest ih =>
    intro h init
    obtain ⟨v0, hv0⟩ : ∃ v0, r.get? ci = some v0 :=
      Option.isSome_iff_exists.mp (by
        simp [List.get?_eq_getElem?, h r (by simp)])
    have hv0' : r[ci]? = some v0 := by rwa [List.get?_eq_getElem?] at hv0
    obtain ⟨s, hs, hmem⟩ := ih (fun a ha => h a (by simp [ha])) (insert v0 init)
    refine ⟨s, ?_, ?_⟩
    · simpa [List.foldlM_cons, hv0, hv0'] using hs
    · intro v
      rw [hmem v, Finset.mem_insert]
      constructor
      · rintro ((rfl | hi) | ⟨a, ha, hget⟩)
        · exact Or.inr ⟨r, by simp, hv0⟩
        · exact Or.inl hi
        · exact Or.inr ⟨a, by simp [ha], hget⟩
      · rintro (hi | ⟨a, ha, hget⟩)
        · exact Or.inl (Or.inr hi)
        · rcases List.mem_cons.mp ha with rfl | ha
          · exact Or.inl (Or.inl (by rw [hv0] at hget; exact (Option.some.inj hget).symm))
          · exact Or.inr ⟨a, ha, hget⟩

/-- C9: for a well-formed CSV (every data row has the header's seven
fields), `get_col_set` on column `ci < 7` returns exactly the set of
distinct string values appearing in that column over all rows after the
header; and the bulk load (`COPY ... WITH CSV HEADER`) copies exactly
the data rows verbatim, through the `copy_expert` call present in the
notebook's event sequence. -/
theorem C9_get_col_set_and_copy (header : List String)
    (rows : List (List String)) (ci : Nat) (hci : ci < 7)
    (hlen : ∀ r ∈ rows, r.length = 7) :
    (∃ s, get_col_set (header :: rows) ci = some s ∧
      ∀ v, v ∈ s ↔ ∃ r ∈ rows, r.get? ci = some v) ∧
    copy_csv_rows (header :: rows) = rows ∧
    CrimeEvent.copyExpert "crimes.boston_crimes" "data/boston.csv" ∈
      crime_events := by
  refine ⟨?_, rfl, by decide⟩
  obtain ⟨s, hs, hmem⟩ :=
    foldlM_insert_eq ci rows (fun r hr => (hlen r hr) ▸ hci) ∅
  exact ⟨s, hs, fun v => by simpa using hmem v⟩

/-- C9 witness: the column sets of a small concrete CSV. -/
theorem C9_get_col_set_witness :
    (∃ s, get_col_set
        [["incident_number", "offense_code", "description", "date",
          "day_of_the_week", "lat", "long"],
         ["1", "619", "LARCENY ALL OTHERS", "2018-09-02", "Sunday",
          "42.35779134", "-71.13937053"],
         ["2", "1402", "VANDALISM", "2018-08-21", "Tuesday",
          "42.30682138", "-71.06030035"]] 4 = some s ∧
      ∀ v, v ∈ s ↔ ∃ r ∈
        [["1", "619", "LARCENY ALL OTHERS", "2018-09-02", "Sunday",
          "42.35779134", "-71.13937053"],
         ["2", "1402", "VANDALISM", "2018-08-21", "Tuesday",
          "42.30682138", "-71.06030035"]], r.get? 4 = some v) ∧
    copy_csv_rows
        [["incident_number", "offense_code", "description", "date",
          "day_of_the_week", "lat", "long"],
         ["1", "619", "LARCENY ALL OTHERS", "2018-09-02", "Sunday",
          "42.35779134", "-71.13937053"],
         ["2", "1402", "VANDALISM", "2018-08-21", "Tuesday",
          "42.30682138", "-71.06030035"]] =
      [["1", "619", "LARCENY ALL OTHERS", "2018-09-02", "Sunday",
        "42.35779134", "-71.13937053"],
       ["2", "1402", "VANDALISM", "2018-08-21", "Tuesday",
        "42.30682138", "-71.06030035"]] ∧
    CrimeEvent.copyExpert "crimes.boston_crimes" "data/boston.csv" ∈
      crime_events :=
  C9_get_col_set_and_copy _ _ 4 (by decide) (by decide)

/-! ## The employee-performance claim -/

/-- When `customer_id` and `employee_id` are keys, the two LEFT JOINs
resolve each invoice to at most one customer and employee. -/
theorem employee_rows_eq (db : ChinookDb)
    (hc : (db.customer.map (·.customer_id)).Nodup)
    (he : (db.employee.map (·.employee_id)).Nodup) :
    employee_rows db = db.invoice.map fun i =>
      ((i, db.customer.find? fun c => c.customer_id == i.customer_id),
        invoice_employee db i) := by
  unfold employee_rows
  rw [leftJoin_eq_map db.invoice db.customer _
    (fun i _ => filter_key_length_le_one (·.customer_id) db.customer hc
      i.customer_id)]
  rw [leftJoin_eq_map _ db.employee _ (by
    intro x hx
    obtain ⟨i, hi, rfl⟩ := List.mem_map.mp hx
    cases hfc : db.customer.find? fun c => c.customer_id == i.customer_id with
    | none => simp [hfc]
    | some c =>
        simpa [hfc] using
          filter_key_length_le_one (·.employee_id) db.employee he
            c.support_rep_id)]
  rw [List.map_map]
  refine List.map_congr_left fun i _ => ?_
  unfold invoice_employee
  cases hfc : db.customer.find? fun c => c.customer_id == i.customer_id with
  | none =>
      simp only [Function.comp, hfc, Option.bind]
      refine congrArg _ (List.find?_eq_none.mpr fun e _ => by simp)
  | some c => simp [Function.comp, hfc]

/-- C7: every named row of the employee-performance query carries, as
`total_sales`, the sum of `invoice.total` over exactly the invoices
whose customer's `support_rep_id` resolves (through `customer`, then
`employee`) to an employee with that name. -/
theorem C7_employee_total_sales (db : ChinookDb)
    (hc : (db.customer.map (·.customer_id)).Nodup)
    (he : (db.employee.map (·.employee_id)).Nodup)
    (n : String) (s : Rat)
    (hmem : (some n, s) ∈ employee_query db) :
    s = ((db.invoice.filter fun i => invoice_employee_name db i == some n).map
          (·.total)).sum := by
  simp only [employee_query, employee_rows_eq db hc he] at hmem
  obtain ⟨k, hk, heq⟩ := List.mem_map.mp hmem
  obtain ⟨hk1, hk2⟩ := Prod.mk.injEq .. ▸ heq
  subst hk1
  rw [← hk2, List.filter_map, List.map_map]
  rfl

/-- A small concrete Chinook database used by the witnesses: two genres,
three tracks over two albums, three invoices (10, 20, 40) of three
customers in two countries, two employees.  Jane Peacock serves the two
USA customers; invoice 1 buys album 1 completely, invoice 2 only one of
its tracks, invoice 3 buys the (one-track) album 2 completely. -/
def sampleDb : ChinookDb :=
  { genre := [⟨1, "Rock"⟩, ⟨2, "Jazz"⟩]
    track := [⟨1, 1, 1⟩, ⟨2, 1, 1⟩, ⟨3, 2, 2⟩]
    invoice_line := [⟨1, 1, 1, 1⟩, ⟨2, 1, 2, 1⟩, ⟨3, 2, 1, 1⟩, ⟨4, 3, 3, 1⟩]
    invoice := [⟨1, 1, (10 : Rat)⟩, ⟨2, 2, (20 : Rat)⟩, ⟨3, 3, (40 : Rat)⟩]
    customer := [⟨1, 1, "Frank", "Harris", "USA"⟩,
                 ⟨2, 1, "Kara", "Nielsen", "USA"⟩,
                 ⟨3, 2, "Helena", "Holy", "France"⟩]
    employee := [⟨1, "Jane", "Peacock", "2017-04-01"⟩,
                 ⟨2, "Steve", "Johnson", "2017-10-17"⟩] }

/-- C7 witness: in `sampleDb`, the `Jane Peacock` row's `total_sales`
aggregates exactly her customers' invoices. -/
theorem C7_employee_total_sales_witness :
    (((employee_rows sampleDb).filter
        (fun r => row_employee_name r == some "Jane Peacock")).map
          fun r => r.1.1.total).sum =
      ((sampleDb.invoice.filter fun i =>
          invoice_employee_name sampleDb i == some "Jane Peacock").map
            (·.total)).sum :=
  C7_employee_total_sales sampleDb (by decide) (by decide) "Jane Peacock" _
    (List.mem_map.mpr ⟨some "Jane Peacock", by decide, rfl⟩)

/-! ## The genre-popularity claim -/

/-- An invoice line's resolved join row: its track and that track's
genre, when both keys resolve. -/
def line_resolve (db : ChinookDb) (il : InvoiceLine) :
    Option ((InvoiceLine × Track) × Genre) :=
  (db.track.find? fun t => t.track_id == il.track_id).bind fun t =>
    (db.genre.find? fun g => g.genre_id == t.genre_id).map fun g => ((il, t), g)

theorem line_resolve_fst (db : ChinookDb) (il : InvoiceLine)
    (r : (InvoiceLine × Track) × Genre) (h : line_resolve db il = some r) :
    r.1.1 = il := by
  unfold line_resolve at h
  cases hft : db.track.find? fun t => t.track_id == il.track_id with
  | none => rw [hft] at h; exact absurd h (by simp)
  | some t =>
      simp only [hft, Option.some_bind] at h
      cases hfg : db.genre.find? fun g => g.genre_id == t.genre_id with
      | none => rw [hfg] at h; exact absurd h (by simp)
      | some g =>
          rw [hfg] at h
          obtain rfl := Option.some.inj h
          rfl

theorem line_genre_name_eq (db : ChinookDb) (il : InvoiceLine) :
    line_genre_name db il = (line_resolve db il).map fun r => r.2.name := by
  unfold line_genre_name line_resolve
  cases hft : db.track.find? fun t => t.track_id == il.track_id with
  | none => rfl
  | some t =>
      simp only [Option.some_bind]
      cases hfg : db.genre.find? fun g => g.genre_id == t.genre_id with
      | none => rfl
      | some g => rfl

/-- When `track_id` and `genre_id` are keys, the CTE's joins resolve
each invoice line to at most one `(track, genre)` pair. -/
theorem genre_join_rows_eq (db : ChinookDb)
    (ht : (db.track.map (·.track_id)).Nodup)
    (hg : (db.genre.map (·.genre_id)).Nodup) :
    genre_join_rows db = db.invoice_line.filterMap (line_resolve db) := by
  unfold genre_join_rows
  rw [innerJoin_eq_filterMap db.invoice_line db.track _
    (fun il _ => filter_key_length_le_one (·.track_id) db.track ht il.track_id)]
  rw [innerJoin_eq_filterMap _ db.genre _
    (fun r _ => filter_key_length_le_one (·.genre_id) db.genre hg r.2.genre_id)]
  rw [List.filterMap_filterMap]
  refine List.filterMap_congr fun il _ => ?_
  unfold line_resolve
  cases hft : db.track.find? fun t => t.track_id == il.track_id with
  | none => rfl
  | some t => rfl

/-- The per-genre sum over resolved join rows equals the sum over the
invoice lines whose track belongs to that genre. -/
theorem sum_filter_resolved (db : ChinookDb) (g : String) :
    ∀ ils : List InvoiceLine,
      (((ils.filterMap (line_resolve db)).filter fun r => r.2.name == g).map
        fun r => r.1.1.quantity).sum =
      ((ils.filter fun il => line_genre_name db il == some g).map
        (·.quantity)).sum := by
  intro ils
  induction ils with
  | nil => rfl
  | cons il rest ih =>
    rw [List.filterMap_cons, List.filter_cons]
    cases hres : line_resolve db il with
    | none =>
        have hname : (line_genre_name db il == some g) = false := by
          rw [line_genre_name_eq, hres]; rfl
        simp only [hname, if_false, Bool.false_eq_true, ih]
    | some r0 =>
        have hname : (line_genre_name db il == some g) = (r0.2.name == g) := by
          rw [line_genre_name_eq, hres]; rfl
        have hfst : r0.1.1 = il := line_resolve_fst db il r0 hres
        rw [List.filter_cons, hname]
        cases hng : (r0.2.name == g) with
        | false => simp only [Bool.false_eq_true, if_false, ih]
        | true =>
            simp only [if_true, List.map_cons, List.sum_cons, ih, hfst]

/-- C6: every row of the genre-popularity query carries, as
`tracks_sold`, the sum of invoice-line quantities over the lines whose
track belongs to that genre, and, as `percentage`, `ROUND(100 *
tracks_sold / total, 2)` where `total` sums `tracks_sold` over all
genres; and the result is ordered by `tracks_sold` descending. -/
theorem C6_genre_popularity (db : ChinookDb)
    (ht : (db.track.map (·.track_id)).Nodup)
    (hg : (db.genre.map (·.genre_id)).Nodup)
    (r : String × Nat × Rat) (hr : r ∈ genre_query db) :
    (r.2.1 = genre_line_sales db r.1 ∧
      r.2.2 = roundTo 2 (100 * (r.2.1 : Rat) / total_tracks_sold db)) ∧
    (genre_query db).Pairwise (fun a b => b.2.1 ≤ a.2.1) := by
  constructor
  · simp only [genre_query, genreMainQuery] at hr
    have hr' := (List.perm_insertionSort _ _).mem_iff.mp hr
    obtain ⟨c, hc, hceq⟩ := List.mem_map.mp hr'
    obtain ⟨gname, hgname, hceq2⟩ := List.mem_map.mp hc
    subst hceq hceq2
    refine ⟨?_, rfl⟩
    show _ = genre_line_sales db gname
    unfold genre_line_sales
    rw [genre_join_rows_eq db ht hg, sum_filter_resolved db gname]
  · simp only [genre_query, genreMainQuery]
    haveI : IsTotal (String × Nat × Rat) (fun a b => b.2.1 ≤ a.2.1) :=
      ⟨fun a b => le_total b.2.1 a.2.1⟩
    haveI : IsTrans (String × Nat × Rat) (fun a b => b.2.1 ≤ a.2.1) :=
      ⟨fun _ _ _ h1 h2 => le_trans h2 h1⟩
    exact List.sorted_insertionSort _ _

/-- C6 witness: in `sampleDb`, the Rock row aggregates quantity 3 over
the three Rock lines, with the stated percentage, and the result is
sorted by `tracks_sold` descending. -/
theorem C6_genre_popularity_witness :
    ((3 = genre_line_sales sampleDb "Rock" ∧
      roundTo 2 (100 * ((3 : Nat) : Rat) / total_tracks_sold sampleDb) =
        roundTo 2 (100 * ((3 : Nat) : Rat) / total_tracks_sold sampleDb)) ∧
     (genre_query sampleDb).Pairwise (fun a b => b.2.1 ≤ a.2.1)) :=
  C6_genre_popularity sampleDb (by decide) (by decide)
    ("Rock", 3, roundTo 2 (100 * ((3 : Nat) : Rat) / total_tracks_sold sampleDb))
    ((List.perm_insertionSort _ _).mem_iff.mpr
      (List.mem_map.mpr ⟨("Rock", 3), by decide, rfl⟩))

/-! ## The album-purchase claim -/

/-- When `track_id` is a key, the CTE's LEFT JOIN resolves each line to
its (unique) track's album. -/
theorem invoice_album_eq (db : ChinookDb)
    (ht : (db.track.map (·.track_id)).Nodup) :
    invoice_album db = db.invoice_line.map fun il =>
      ⟨il.invoice_id, il.invoice_line_id, il.track_id, line_album db il⟩ := by
  unfold invoice_album
  rw [leftJoin_eq_map db.invoice_line db.track _
    (fun il _ => filter_key_length_le_one (·.track_id) db.track ht il.track_id)]
  rw [List.map_map]
  rfl

theorem invoice_rows_eq (db : ChinookDb)
    (ht : (db.track.map (·.track_id)).Nodup) (inv : Nat) :
    invoice_rows db inv = (invoice_lines db inv).map fun il =>
      ⟨il.invoice_id, il.invoice_line_id, il.track_id, line_album db il⟩ := by
  unfold invoice_rows invoice_lines
  rw [invoice_album_eq db ht, List.filter_map]
  rfl

theorem num_albums_eq (db : ChinookDb)
    (ht : (db.track.map (·.track_id)).Nodup) (inv : Nat) :
    num_albums db inv = (invoice_albums db inv).length := by
  unfold num_albums invoice_albums
  rw [invoice_rows_eq db ht inv, List.filterMap_map]
  rfl

theorem distinct_songs_eq (db : ChinookDb)
    (ht : (db.track.map (·.track_id)).Nodup) (inv : Nat) :
    distinct_songs db inv = invoice_distinct_tracks db inv := by
  unfold distinct_songs invoice_distinct_tracks
  rw [invoice_rows_eq db ht inv, List.map_map]
  rfl

theorem picked_album_length_eq (db : ChinookDb)
    (ht : (db.track.map (·.track_id)).Nodup) (inv : Nat) :
    picked_album_length db inv =
      ((((invoice_lines db inv).filterMap (line_album db)).max?).map
        (album_length db)) := by
  unfold picked_album_length
  rw [invoice_rows_eq db ht inv, List.filterMap_map]
  rfl

theorem invoice_lines_ne_nil (db : ChinookDb)
    (ht : (db.track.map (·.track_id)).Nodup) (inv : Nat)
    (hinv : inv ∈ invoiceIds db) : invoice_lines db inv ≠ [] := by
  unfold invoiceIds at hinv
  rw [invoice_album_eq db ht, List.mem_dedup, List.map_map] at hinv
  obtain ⟨il, hil, hid⟩ := List.mem_map.mp hinv
  intro hnil
  have hmem : il ∈ invoice_lines db inv :=
    List.mem_filter.mpr ⟨hil, beq_iff_eq.mpr hid⟩
  rw [hnil] at hmem
  exact absurd hmem (List.not_mem_nil il)

theorem line_album_isSome (db : ChinookDb)
    (hres : ∀ il ∈ db.invoice_line, ∃ t ∈ db.track, t.track_id = il.track_id)
    (il : InvoiceLine) (hil : il ∈ db.invoice_line) :
    (line_album db il).isSome := by
  unfold line_album
  obtain ⟨t, htm, hteq⟩ := hres il hil
  have hfs : (db.track.find? fun t => t.track_id == il.track_id).isSome :=
    List.find?_isSome.mpr ⟨t, htm, beq_iff_eq.mpr hteq⟩
  obtain ⟨u, hu⟩ := Option.isSome_iff_exists.mp hfs
  rw [hu]
  rfl

/-- C1: an invoice owning at least one line is classified `yes` exactly
when its lines' tracks span one single distinct album whose full track
list (by distinct count) was bought, and is classified `no` otherwise
— assuming `track_id` is a key of `track` and every line's track
exists. -/
theorem C1_album_purchase_classification (db : ChinookDb)
    (ht : (db.track.map (·.track_id)).Nodup)
    (hres : ∀ il ∈ db.invoice_line, ∃ t ∈ db.track, t.track_id = il.track_id)
    (inv : Nat) (hinv : inv ∈ invoiceIds db) :
    ((inv, "yes") ∈ album_purchase_rows db ↔ claim_album_purchase db inv) ∧
    ((inv, "no") ∈ album_purchase_rows db ↔ ¬ claim_album_purchase db inv) := by
  have hLne : invoice_lines db inv ≠ [] := invoice_lines_ne_nil db ht inv hinv
  -- the resolved album list of the group is nonempty
  have hAne : (invoice_lines db inv).filterMap (line_album db) ≠ [] := by
    cases hl : invoice_lines db inv with
    | nil => exact absurd hl hLne
    | cons il rest =>
        have hil : il ∈ db.invoice_line := by
          have : il ∈ invoice_lines db inv := by rw [hl]; simp
          exact List.mem_of_mem_filter this
        obtain ⟨a, ha⟩ :=
          Option.isSome_iff_exists.mp (line_album_isSome db hres il hil)
        simp [List.filterMap_cons, ha]
  -- the MAX album of the group
  obtain ⟨m, hm, hmm⟩ :
      ∃ m, ((invoice_lines db inv).filterMap (line_album db)).max? = some m ∧
        m ∈ (invoice_lines db inv).filterMap (line_album db) := by
    cases hm : ((invoice_lines db inv).filterMap (line_album db)).max? with
    | none => exact absurd (List.max?_eq_none_iff.mp hm) hAne
    | some m => exact ⟨m, rfl, List.max?_mem max_choice hm⟩
  have hpick : picked_album_length db inv = some (album_length db m) := by
    rw [picked_album_length_eq db ht inv, hm]
    rfl
  have hyes_eq : yes_condition db inv =
      ((invoice_albums db inv).length == 1 &&
        (invoice_distinct_tracks db inv == album_length db m)) := by
    unfold yes_condition
    rw [hpick, num_albums_eq db ht inv, distinct_songs_eq db ht inv]
  have hno_eq : no_condition db inv = ! yes_condition db inv := by
    unfold yes_condition no_condition
    rw [hpick]
    cases h1 : (num_albums db inv == 1) <;>
      cases h2 : (distinct_songs db inv == album_length db m) <;>
        simp [bne, h1, h2]
  have hcl : yes_condition db inv = true ↔ claim_album_purchase db inv := by
    rw [hyes_eq]
    constructor
    · intro h
      rw [Bool.and_eq_true] at h
      obtain ⟨h1, h2⟩ := h
      obtain ⟨a, ha⟩ := List.length_eq_one.mp (by simpa using h1)
      have hma : m = a := by
        have : m ∈ invoice_albums db inv := List.mem_dedup.mpr hmm
        rw [ha] at this
        simpa using this
      exact ⟨a, ha, by rw [← hma]; simpa using h2⟩
    · rintro ⟨a, ha, htr⟩
      have hma : m = a := by
        have : m ∈ invoice_albums db inv := List.mem_dedup.mpr hmm
        rw [ha] at this
        simpa using this
      rw [Bool.and_eq_true]
      refine ⟨by simp [ha], ?_⟩
      rw [hma]
      simpa using htr
  have hmem_yes : (inv, "yes") ∈ album_purchase_rows db ↔
      yes_condition db inv = true := by
    unfold album_purchase_rows
    rw [List.mem_append]
    constructor
    · rintro (h | h)
      · obtain ⟨i, hi, heq⟩ := List.mem_map.mp h
        obtain ⟨rfl, -⟩ := Prod.mk.injEq .. ▸ heq
        exact (List.mem_filter.mp hi).2
      · obtain ⟨i, hi, heq⟩ := List.mem_map.mp h
        exact absurd (Prod.mk.injEq .. ▸ heq).2 (by decide)
    · intro h
      exact Or.inl (List.mem_map.mpr ⟨inv, List.mem_filter.mpr ⟨hinv, h⟩, rfl⟩)
  have hmem_no : (inv, "no") ∈ album_purchase_rows db ↔
      no_condition db inv = true := by
    unfold album_purchase_rows
    rw [List.mem_append]
    constructor
    · rintro (h | h)
      · obtain ⟨i, hi, heq⟩ := List.mem_map.mp h
        exact absurd (Prod.mk.injEq .. ▸ heq).2 (by decide)
      · obtain ⟨i, hi, heq⟩ := List.mem_map.mp h
        obtain ⟨rfl, -⟩ := Prod.mk.injEq .. ▸ heq
        exact (List.mem_filter.mp hi).2
    · intro h
      exact Or.inr (List.mem_map.mpr ⟨inv, List.mem_filter.mpr ⟨hinv, h⟩, rfl⟩)
  refine ⟨hmem_yes.trans hcl, hmem_no.trans ?_⟩
  rw [hno_eq]
  rw [Bool.not_eq_true']
  rw [← Bool.not_eq_true (yes_condition db inv)]
  exact not_congr hcl

/-- C1 witness: in `sampleDb`, invoice 1 (which buys all of album 1) is
classified `yes` and satisfies the classification rule; the `no`
direction holds vacuously-false on both sides. -/
theorem C1_album_purchase_classification_witness :
    (((1, "yes") ∈ album_purchase_rows sampleDb ↔
        claim_album_purchase sampleDb 1) ∧
     ((1, "no") ∈ album_purchase_rows sampleDb ↔
        ¬ claim_album_purchase sampleDb 1)) :=
  C1_album_purchase_classification sampleDb (by decide) (by decide) 1 (by decide)

/-! ## The country-statistics claim -/

theorem countP_eq_one_of_nodup {α : Type} [BEq α] [LawfulBEq α] :
    ∀ l : List α, l.Nodup → ∀ k ∈ l, l.countP (fun x => x == k) = 1 := by
  intro l
  induction l with
  | nil => intro _ k hk; exact absurd hk (List.not_mem_nil k)
  | cons a l ih =>
    intro hnd k hk
    obtain ⟨ha, hl⟩ := List.nodup_cons.mp hnd
    rw [List.countP_cons]
    rcases List.mem_cons.mp hk with rfl | hk
    · have : l.countP (fun x => x == k) = 0 :=
        List.countP_eq_zero.mpr fun b hb hbeq =>
          ha (beq_iff_eq.mp hbeq ▸ hb)
      simp [this]
    · have hak : (a == k) = false := by
        refine beq_eq_false_iff_ne.mpr fun h => ?_
        exact ha (h ▸ hk)
      simp [ih hl k hk, hak]

/-- C2: the final country query yields exactly one row for a
multi-customer country `cM` — carrying that country's own distinct
customer count and rounded total sales — plus exactly one row labelled
`Other` whose `number_of_customers` and `total_sales` are the sums of
those columns over the single-customer countries; a single-customer
country `cS` gets no row of its own, and the result has exactly one row
per multi-customer country plus the `Other` row.  (Hypotheses: no
country is itself named `Other`, and `cM`, `cS` are countries of the
view with more than one, respectively exactly one, distinct customer.) -/
theorem C2_country_bucketing (db : ChinookDb)
    (hno : some "Other" ∉ country_keys db)
    (cM cS : String)
    (hM : some cM ∈ country_keys db)
    (hMgt : 1 < number_of_customers db (some cM))
    (hS : some cS ∈ country_keys db)
    (hS1 : number_of_customers db (some cS) = 1) :
    ((country_query db).countP fun r => r.1 == some cM) = 1 ∧
    (some cM, some (number_of_customers db (some cM)),
      some (country_total_sales db (some cM)),
      some (country_total_sales db (some cM) /
        (number_of_customers db (some cM) : Rat)),
      some (roundTo 2 (country_total_sales db (some cM) /
        (number_of_orders db (some cM) : Rat)))) ∈ country_query db ∧
    ((country_query db).countP fun r => r.1 == some "Other") = 1 ∧
    (other_row db).number_of_customers =
      some ((single_countries db).map (number_of_customers db)).sum ∧
    (other_row db).total_sales =
      some ((single_countries db).map (country_total_sales db)).sum ∧
    (some "Other", (other_row db).number_of_customers,
      (other_row db).total_sales, (other_row db).sales_per_customer,
      (other_row db).sales_per_order) ∈ country_query db ∧
    ((country_query db).countP fun r => r.1 == some cS) = 0 ∧
    (country_query db).length = (multi_countries db).length + 1 := by
  have hcMne : cM ≠ "Other" := fun h => hno (h ▸ hM)
  have hcSne : cS ≠ "Other" := fun h => hno (h ▸ hS)
  have hmulti_nd : (multi_countries db).Nodup :=
    (List.nodup_dedup _).filter _
  have hinj : Function.Injective (country_a_row db) := fun k1 k2 h =>
    congrArg CountryRow.country h
  have hpre_nd :
      ((multi_countries db).map (country_a_row db) ++ [other_row db]).Nodup := by
    rw [List.nodup_append]
    refine ⟨hmulti_nd.map hinj, List.nodup_singleton _, ?_⟩
    intro x hx hy
    obtain ⟨k, hk, rfl⟩ := List.mem_map.mp hx
    have hsort : ("A" : String) = "B" :=
      congrArg CountryRow.sorting (List.mem_singleton.mp hy)
    exact absurd hsort (by decide)
  have hdedup : country_union_rows db =
      (multi_countries db).map (country_a_row db) ++ [other_row db] :=
    List.Nodup.dedup hpre_nd
  have hperm :
      (List.insertionSort (fun a b => countryRowLe a b = true)
          (country_union_rows db)).Perm
        ((multi_countries db).map (country_a_row db) ++ [other_row db]) :=
    hdedup ▸ List.perm_insertionSort _ _
  have hcMmem : some cM ∈ multi_countries db :=
    List.mem_filter.mpr ⟨hM, by simp [hMgt]⟩
  have hcSsing : some cS ∈ single_countries db :=
    List.mem_filter.mpr ⟨hS, by simp [hS1]⟩
  have hsingles_ne : single_countries db ≠ [] := List.ne_nil_of_mem hcSsing
  -- transporting row counts through projection, sort and dedup
  have hcount : ∀ p : Option String → Bool,
      ((country_query db).countP fun r => p r.1) =
        ((multi_countries db).countP fun k => p k) +
          ([some "Other"].countP p) := by
    intro p
    unfold country_query
    rw [List.countP_map, hperm.countP_eq, List.countP_append, List.countP_map]
    rfl
  have hmem_query : ∀ r ∈
      (multi_countries db).map (country_a_row db) ++ [other_row db],
      (r.country, r.number_of_customers, r.total_sales, r.sales_per_customer,
        r.sales_per_order) ∈ country_query db := by
    intro r hr
    unfold country_query
    exact List.mem_map.mpr ⟨r, hperm.mem_iff.mpr hr, rfl⟩
  refine ⟨?_, ?_, ?_, ?_, ?_, ?_, ?_, ?_⟩
  · -- exactly one cM row
    rw [hcount fun k => k == some cM]
    have hbeq : ((some "Other" : Option String) == some cM) = false :=
      beq_eq_false_iff_ne.mpr fun h => hcMne (Option.some.inj h).symm
    rw [countP_eq_one_of_nodup _ hmulti_nd _ hcMmem]
    simp [List.countP_cons, hbeq]
  · -- the cM row carries the country's own aggregates
    exact hmem_query (country_a_row db (some cM))
      (List.mem_append_left _ (List.mem_map.mpr ⟨some cM, hcMmem, rfl⟩))
  · -- exactly one Other row
    rw [hcount fun k => k == some "Other"]
    have hz : ((multi_countries db).countP fun k => k == some "Other") = 0 :=
      List.countP_eq_zero.mpr fun k hk hbeq =>
        hno (beq_iff_eq.mp hbeq ▸ List.mem_of_mem_filter hk)
    simp [hz, List.countP_cons]
  · -- SUM(number_of_customers) over the single-customer countries
    show sqlSumN ((single_countries db).map (number_of_customers db)) = _
    exact sqlSumN_of_ne_nil fun h =>
      hsingles_ne (List.map_eq_nil_iff.mp h)
  · -- SUM(total_sales) over the single-customer countries
    show sqlSumQ ((single_countries db).map (country_total_sales db)) = _
    exact sqlSumQ_of_ne_nil fun h =>
      hsingles_ne (List.map_eq_nil_iff.mp h)
  · -- the Other row is in the result
    exact hmem_query (other_row db)
      (List.mem_append_right _ (List.mem_singleton.mpr rfl))
  · -- no row for the single-customer country cS
    rw [hcount fun k => k == some cS]
    have hz1 : ((multi_countries db).countP fun k => k == some cS) = 0 :=
      List.countP_eq_zero.mpr fun k hk hbeq => by
        have hgt : (decide (1 < number_of_customers db k)) = true :=
          (List.mem_filter.mp hk).2
        rw [beq_iff_eq.mp hbeq, hS1] at hgt
        exact absurd (of_decide_eq_true hgt) (by omega)
    have hz2 : ((some "Other" : Option String) == some cS) = false :=
      beq_eq_false_iff_ne.mpr fun h => hcSne (Option.some.inj h).symm
    simp [hz1, hz2, List.countP_cons]
  · -- one row per multi-customer country plus the Other row
    unfold country_query
    rw [List.length_map, hperm.length_eq, List.length_append, List.length_map]
    rfl

/-- C2 witness: in `sampleDb`, USA (two customers) keeps its own row
with its own aggregates, France (one customer) is folded into the single
`Other` row carrying the sums, and the result has one row per
multi-customer country plus `Other`. -/
theorem C2_country_bucketing_witness :
    ((country_query sampleDb).countP fun r => r.1 == some "USA") = 1 ∧
    (some "USA", some (number_of_customers sampleDb (some "USA")),
      some (country_total_sales sampleDb (some "USA")),
      some (country_total_sales sampleDb (some "USA") /
        (number_of_customers sampleDb (some "USA") : Rat)),
      some (roundTo 2 (country_total_sales sampleDb (some "USA") /
        (number_of_orders sampleDb (some "USA") : Rat)))) ∈
      country_query sampleDb ∧
    ((country_query sampleDb).countP fun r => r.1 == some "Other") = 1 ∧
    (other_row sampleDb).number_of_customers =
      some ((single_countries sampleDb).map
        (number_of_customers sampleDb)).sum ∧
    (other_row sampleDb).total_sales =
      some ((single_countries sampleDb).map
        (country_total_sales sampleDb)).sum ∧
    (some "Other", (other_row sampleDb).number_of_customers,
      (other_row sampleDb).total_sales,
      (other_row sampleDb).sales_per_customer,
      (other_row sampleDb).sales_per_order) ∈ country_query sampleDb ∧
    ((country_query sampleDb).countP fun r => r.1 == some "France") = 0 ∧
    (country_query sampleDb).length = (multi_countries sampleDb).length + 1 :=
  C2_country_bucketing sampleDb (by decide) "USA" "France" (by decide)
    (by decide) (by decide) (by decide)

end NotebooksRepo
